import Mathlib

/-!
Verification of the `bltools` manuscript downloader against its
natural-language specification.  The definitions below are a shallow
embedding of `src/bltools/core.py` and `src/bltools/models.py`:
pure computations become Lean functions, the effectful page processors
become explicit functions from an environment (file-system state,
network responses, decoder behaviour) to an outcome record, and Python
exceptions become explicit `Except` values or outcome flags.
-/

namespace BLTools

/-- Raw byte payloads are modelled as lists of naturals. -/
abbrev Bytes := List Nat

/-- A tile coordinate as generated by `process_legacy_page`: the first
component is the `c` loop variable (ranging over `columns_count`, derived
from the width), the second the `r` loop variable (ranging over
`rows_count`, derived from the height). -/
abbrev Coord := Nat × Nat

/-! ## Tile grid planner (core.py lines 199-216) -/

/-- Embeds `columns_count = (width // tile_size) + 1` (core.py line 199).
Note the code derives the *column* count from the width; the spec's
naming calls this width-derived count the "row" count because it fills
the first slot of the tile URL and drives the x pixel offset. -/
def columns_count (width tile_size : Nat) : Nat := width / tile_size + 1

/-- Embeds `rows_count = (height // tile_size) + 1` (core.py line 200). -/
def rows_count (height tile_size : Nat) : Nat := height / tile_size + 1

/-- Embeds the task comprehension of core.py lines 212-216:
`[(c, r) for c in range(columns_count) for r in range(rows_count)]`
(each pair is handed to `get_tile` together with the formatted URL). -/
def tileTasks (width height tile_size : Nat) : List Coord :=
  (List.range (columns_count width tile_size)).flatMap
    (fun c => (List.range (rows_count height tile_size)).map (fun r => (c, r)))

/-- Embeds `tile_url_template.format(c, r)` (core.py lines 202, 213): the
width-derived coordinate `c` fills the first URL slot. -/
def tile_url (baseurl manuscript_id stem : String) (zoom_level : Nat) (cr : Coord) :
    String :=
  baseurl ++ manuscript_id ++ "_" ++ stem ++ "_files/" ++ toString zoom_level ++ "/" ++
    toString cr.1 ++ "_" ++ toString cr.2 ++ ".jpg"

/-- Embeds `page_image.paste(tile, (col * tile_size, row * tile_size))`
(core.py line 228): the width-derived coordinate `c` drives the x offset. -/
def paste_position (tile_size : Nat) (cr : Coord) : Nat × Nat :=
  (cr.1 * tile_size, cr.2 * tile_size)

/-! ## Legacy metadata parse (get_file_info, core.py lines 59-75) -/

/-- The three fields extracted from the deep-zoom XML descriptor:
`Image/Size/@Width`, `Image/Size/@Height`, `Image/@TileSize`.  A field is
`none` when it is missing from the parsed document (Python `KeyError`) or
its text does not parse as an integer (Python `int(...)` raising
`ValueError`). -/
structure XmlInfoDoc where
  width : Option Int
  height : Option Int
  tileSize : Option Int

/-- Embeds the parse block of `get_file_info` (core.py lines 66-75):
`w = int(info_dict["Image"]["Size"]["@Width"]) - 1`,
`h = int(info_dict["Image"]["Size"]["@Height"]) - 1`,
`t = int(info_dict["Image"]["@TileSize"])`; any `KeyError`/`ValueError`
is caught and re-raised as `ValueError("Failed to parse XML ...")`. -/
def get_file_info_parse (d : XmlInfoDoc) : Except String (Int × Int × Int) :=
  match d.width, d.height, d.tileSize with
  | some w, some h, some t => .ok (w - 1, h - 1, t)
  | _, _, _ => .error "Failed to parse XML"

/-! ## Retry policy (download_image decorator, core.py lines 78-96) -/

/-- Outcome of one HTTP GET attempt: a successful payload, a network-level
error (`httpx.RequestError`), a non-2xx status (`httpx.HTTPStatusError`
from `raise_for_status`), or any other, non-retryable exception. -/
inductive AttemptOutcome
  | ok (content : Bytes)
  | requestError
  | statusError
  | fatal
deriving DecidableEq

/-- The `@retry` decorator on `download_image` retries only
`httpx.RequestError` and `httpx.HTTPStatusError`
(`retry_if_exception_type`, core.py line 81). -/
def AttemptOutcome.isTransient : AttemptOutcome → Bool
  | .requestError => true
  | .statusError => true
  | _ => false

/-- tenacity `wait_exponential(multiplier, min, max)`: the wait after the
k-th failed attempt is `multiplier * 2^k` clamped into `[min, max]`. -/
def wait_exponential (multiplier mn mx k : Nat) : Nat :=
  max mn (min (multiplier * 2 ^ k) mx)

/-- The wait schedule configured on `download_image` (core.py line 80):
`wait_exponential(multiplier=1, min=1, max=10)`. -/
def retryWait (k : Nat) : Nat := wait_exponential 1 1 10 k

/-- Runs the tenacity loop of `stop_after_attempt` combined with
`retry_if_exception_type`: attempts are numbered from `k`; `fuel` is the
remaining attempt budget.  A successful or non-retryable outcome stops the
loop at once; a transient failure is retried while budget remains, and
after exhaustion the last exception is re-raised.  Returns the number of
the last attempt made together with its outcome. -/
def retry_go (network : Nat → AttemptOutcome) : Nat → Nat → Nat × AttemptOutcome
  | k, 0 => (k, network k)
  | k, fuel + 1 =>
    let out := network k
    if out.isTransient && fuel != 0 then retry_go network (k + 1) fuel
    else (k, out)

/-- Embeds `download_image` (core.py lines 78-96): up to
`stop_after_attempt(5)` attempts, retrying transient errors only. -/
def download_image_run (network : Nat → AttemptOutcome) : Nat × AttemptOutcome :=
  retry_go network 1 5

/-- Embeds the metadata fetch inside `get_file_info` (core.py line 63):
a single bare `client.get(info_url)` with no retry decorator, so exactly
one attempt is made whatever the outcome. -/
def get_file_info_fetch (network : Nat → AttemptOutcome) : Nat × AttemptOutcome :=
  (1, network 1)

/-! ## IIIF models (models.py) -/

/-- Python `needle in hay` substring test. -/
def strContains (hay needle : String) : Bool :=
  (List.range (hay.data.length + 1)).any
    (fun i => needle.data.isPrefixOf (hay.data.drop i))

/-- Python `s.rstrip("/")`. -/
def rstripSlash (s : String) : String :=
  String.mk ((s.data.reverse.dropWhile (fun c => c == '/')).reverse)

/-- Python `a or b` where `a` is an optional string: both `None` and the
empty string are falsy and fall through to `b`. -/
def pyStrOr (a : Option String) (b : String) : String :=
  match a with
  | some s => if s = "" then b else s
  | none => b

/-- Python `s.lower()` (restricted to ASCII case folding). -/
def pyLower (s : String) : String := String.mk (s.data.map Char.toLower)

/-- Embeds `IIIFService` (models.py lines 6-24).  `id` carries the v2
alias `@id`, `id_v3` the v3 alias `id`; likewise for `type`/`type_v3`. -/
structure IIIFService where
  id : Option String
  id_v3 : Option String
  type : Option String
  type_v3 : Option String
  profile : String
deriving DecidableEq

/-- Embeds the `service_id` property: `self.id_v3 or self.id or ""`. -/
def IIIFService.service_id (s : IIIFService) : String :=
  pyStrOr s.id_v3 (pyStrOr s.id "")

/-- Embeds the `is_v3` property (models.py lines 20-24):
`t = (self.type_v3 or self.type or "").lower()` and
`return "3" in t or "/3/" in (self.service_id or "")`. -/
def IIIFService.is_v3 (s : IIIFService) : Bool :=
  strContains (pyLower (pyStrOr s.type_v3 (pyStrOr s.type ""))) "3" ||
    strContains s.service_id "/3/"

/-- Embeds `IIIFImageBody` (models.py lines 27-35). -/
structure IIIFImageBody where
  id : String
  type : String
  format : String
  width : Int
  height : Int
  service : List IIIFService
deriving DecidableEq

/-- Embeds `IIIFAnnotation` (models.py lines 38-44). -/
structure IIIFAnnotation where
  id : String
  type : String
  motivation : String
  body : IIIFImageBody
deriving DecidableEq

/-- Embeds `IIIFAnnotationPage` (models.py lines 47-52). -/
structure IIIFAnnotationPage where
  id : String
  type : String
  items : List IIIFAnnotation
deriving DecidableEq

/-- A canvas label is either a plain string or a per-language map
(pydantic `Union[str, dict[str, Any]]`). -/
inductive PyLabel
  | str (s : String)
  | langMap (m : List (String × List String))
deriving DecidableEq

/-- Embeds `IIIFCanvas` (models.py lines 55-75). -/
structure IIIFCanvas where
  id : String
  type : String
  label : PyLabel
  width : Int
  height : Int
  items : List IIIFAnnotationPage
deriving DecidableEq

/-- Embeds `IIIFCanvas.get_image_url` (models.py lines 65-75): the chain
`self.items[0].items[0].body.service[0]` with `IndexError`/`AttributeError`
caught and collapsed to the empty string; otherwise
`base_url = service.service_id.rstrip("/")` and the v3/v2 URL shapes. -/
def IIIFCanvas.get_image_url (c : IIIFCanvas) : String :=
  match c.items with
  | [] => ""
  | page :: _ =>
    match page.items with
    | [] => ""
    | anno :: _ =>
      match anno.body.service with
      | [] => ""
      | svc :: _ =>
        let base_url := rstripSlash svc.service_id
        if svc.is_v3 then base_url ++ "/full/max/0/default.jpg"
        else base_url ++ "/full/full/0/default.jpg"

/-! ## Range selection (download_manuscript, core.py lines 270-279) -/

/-- Python `int(s)` applied to a digit run: `none` models `ValueError`
for an empty or non-numeric string. -/
def digitsVal : List Char → Option Nat
  | [] => none
  | cs =>
    if cs.all (fun c => c.isDigit) then
      some (cs.foldl (fun n c => n * 10 + (c.toNat - 48)) 0)
    else none

/-- Python `s.strip()`: drop whitespace from both ends. -/
def pyStrip (s : String) : String :=
  String.mk
    (((s.data.dropWhile (fun c => c.isWhitespace)).reverse.dropWhile
        (fun c => c.isWhitespace)).reverse)

/-- Python `s.split(sep)` for a one-character separator: every occurrence
splits, empty segments are preserved. -/
def pySplit (sep : Char) (s : String) : List String :=
  (s.data.splitOn sep).map String.mk

/-- Python `int(s)` on a string: surrounding whitespace is stripped, an
optional sign is allowed, and at least one digit is required (digit
grouping underscores are not modelled). -/
def parsePyInt (s : String) : Option Int :=
  match (pyStrip s).data with
  | '-' :: rest => (digitsVal rest).map (fun n => -(n : Int))
  | '+' :: rest => (digitsVal rest).map (fun n => (n : Int))
  | cs => (digitsVal cs).map (fun n => (n : Int))

/-- Embeds `start, end = map(int, range_str.split("-"))` (core.py line 273):
the string must split on `"-"` into exactly two parts, each parsing as an
integer; otherwise a `ValueError` is raised (modelled as `none`). -/
def parseRange (s : String) : Option (Int × Int) :=
  match pySplit '-' s with
  | [a, b] =>
    match parsePyInt a, parsePyInt b with
    | some x, some y => some (x, y)
    | _, _ => none
  | _ => none

/-- One bound of a Python slice `xs[lo:hi]`: negative indices count from
the end, and every index is clamped into `[0, len(xs)]` — slicing never
raises `IndexError`. -/
def pySliceBound (n : Nat) (i : Int) : Nat :=
  if i < 0 then ((n : Int) + i).toNat else min i.toNat n

/-- Python list slicing `xs[lo:hi]` with clamping semantics. -/
def pySlice {α : Type} (xs : List α) (lo hi : Int) : List α :=
  (xs.take (pySliceBound xs.length hi)).drop (pySliceBound xs.length lo)

/-- Result of applying the requested range in the IIIF branch of
`download_manuscript`: either the run aborts with the re-raised
`ValueError` ("Invalid range format ...") or it proceeds with the
selected canvases. -/
inductive RangeOutcome (α : Type)
  | aborted
  | proceed (items : List α)
deriving DecidableEq

/-- Embeds core.py lines 270-279: when a range string is given, parse it
with `map(int, range_str.split("-"))` — a parse failure is caught and
re-raised as a run-aborting `ValueError` — and select
`items[start - 1 : end]`.  The `except` clause also lists `IndexError`,
but list slicing clamps and never raises it. -/
def select_items {α : Type} (items : List α) (range_str : Option String) :
    RangeOutcome α :=
  match range_str with
  | none => .proceed items
  | some s =>
    match parseRange s with
    | none => .aborted
    | some (start, stop) => .proceed (pySlice items (start - 1) stop)

/-! ## Legacy page processor (process_legacy_page, core.py lines 156-238) -/

/-- One entry of the `asyncio.gather(*tasks, return_exceptions=True)`
result list (core.py line 217): either the fetched tile payload or the
exception value captured in place of it. -/
inductive FetchRes
  | content (b : Bytes)
  | exc
deriving DecidableEq

/-- Whether a gathered result is a captured exception
(`isinstance(res, BaseException)`, core.py line 221). -/
def FetchRes.isExc : FetchRes → Bool
  | .exc => true
  | _ => false

/-- The coordinate of a gathered result that carries a payload. -/
def contentCoord : Coord × FetchRes → Option Coord
  | (cr, .content _) => some cr
  | (_, .exc) => none

/-- Logical network fetches issued by `process_legacy_page`: the metadata
GET of `get_file_info` and one tile GET per task (each possibly retried
internally per the policy on `download_image`). -/
inductive NetCall
  | metadata
  | tile (c r : Nat)
deriving DecidableEq

/-- The observable terminal event of one legacy page, mirroring the log
calls and uncaught exceptions of `process_legacy_page`. -/
inductive LegacyEvent
  | pageSkippedExists
  | infoFetchError
  | pageDownloadedSuccess
  | pageDownloadedWithErrors (failedTiles : Nat)
  | zeroDivisionError
  | decodeError
deriving DecidableEq

/-- Outcome record of one `process_legacy_page` call: the emitted event,
whether `page_image.save(file_path)` ran, whether an exception escaped the
coroutine (to be re-raised by the enclosing `asyncio.gather`), the network
fetches issued, and the coordinates pasted into the composite (its blank
regions are the task coordinates not in `pasted`). -/
structure LegacyOutcome where
  event : LegacyEvent
  fileWritten : Bool
  propagated : Bool
  netCalls : List NetCall
  pasted : List Coord
deriving DecidableEq

/-- Environment of one `process_legacy_page` call: whether the target file
already exists, the result of `get_file_info` (`.error` for any exception
it raises), the per-tile result of `download_image` as captured by the
gather, and whether `Image.open` succeeds on a given payload. -/
structure LegacyEnv where
  fileExists : Bool
  metadata : Except Unit (Nat × Nat × Nat)
  tileFetch : Coord → FetchRes
  decode : Bytes → Bool

/-- Embeds the result loop of core.py lines 219-228: exceptions captured
by the gather increment `failed_tiles` and are skipped; a successful
payload is decoded with `Image.open` — which is NOT wrapped in any
`try`/`except`, so a decode failure raises out of the loop (modelled as
`.error ()`) — and pasted.  On normal completion returns the final
`failed_tiles` count and the pasted coordinates in order. -/
def composite_loop (decode : Bytes → Bool) :
    List (Coord × FetchRes) → Nat → List Coord → Except Unit (Nat × List Coord)
  | [], failed, pasted => .ok (failed, pasted.reverse)
  | (_, .exc) :: rest, failed, pasted => composite_loop decode rest (failed + 1) pasted
  | (cr, .content b) :: rest, failed, pasted =>
    if decode b then composite_loop decode rest failed (cr :: pasted)
    else .error ()

/-- The network fetches issued by one legacy page that got past its
guards: the metadata GET and one tile GET per grid task. -/
def legacy_net_calls (width height tile_size : Nat) : List NetCall :=
  NetCall.metadata ::
    (tileTasks width height tile_size).map (fun cr => NetCall.tile cr.1 cr.2)

/-- The tail of `process_legacy_page` (core.py lines 199-238) once the
skip check, the metadata fetch and the zero tile size guard have passed:
the gathered tile fetches with `return_exceptions=True`, the composite
loop, and the final save — `page_image.save(file_path)` runs only when
`failed_tiles == 0`, otherwise only the `page_downloaded_with_errors`
warning is logged and no file is written. -/
def finish_legacy_page (env : LegacyEnv) (width height tile_size : Nat) :
    LegacyOutcome :=
  match composite_loop env.decode
      ((tileTasks width height tile_size).map (fun cr => (cr, env.tileFetch cr)))
      0 [] with
  | .error _ =>
    { event := .decodeError, fileWritten := false, propagated := true,
      netCalls := legacy_net_calls width height tile_size, pasted := [] }
  | .ok (failed, pasted) =>
    if failed = 0 then
      { event := .pageDownloadedSuccess, fileWritten := true,
        propagated := false, netCalls := legacy_net_calls width height tile_size,
        pasted := pasted }
    else
      { event := .pageDownloadedWithErrors failed, fileWritten := false,
        propagated := false, netCalls := legacy_net_calls width height tile_size,
        pasted := pasted }

/-- Embeds `process_legacy_page` (core.py lines 156-238).  In order:
the `file_path.exists()` skip check; `get_file_info` with its
`try`/`except` (any failure advances progress and returns); the grid
computation `width // tile_size` — Python raises `ZeroDivisionError` for
`tile_size == 0`, and no code catches it, so it escapes the coroutine
(Lean natural division is total, hence the explicit branch); then the
fetch/composite/save tail in `finish_legacy_page`. -/
def process_legacy_page (env : LegacyEnv) : LegacyOutcome :=
  if env.fileExists then
    { event := .pageSkippedExists, fileWritten := false, propagated := false,
      netCalls := [], pasted := [] }
  else
    match env.metadata with
    | .error _ =>
      { event := .infoFetchError, fileWritten := false, propagated := false,
        netCalls := [.metadata], pasted := [] }
    | .ok (width, height, tile_size) =>
      if tile_size = 0 then
        { event := .zeroDivisionError, fileWritten := false, propagated := true,
          netCalls := [.metadata], pasted := [] }
      else
        finish_legacy_page env width height tile_size

/-- The number of gathered tile results that are captured exceptions, for
a given environment and grid. -/
def failedTileCount (env : LegacyEnv) (width height tile_size : Nat) : Nat :=
  ((tileTasks width height tile_size).map (fun cr => env.tileFetch cr)).countP
    (fun r => r.isExc)

/-- Embeds `asyncio.gather(*batch_tasks)` (core.py line 346), which is
called WITHOUT `return_exceptions=True`: an exception escaping any page
coroutine of the batch makes the awaited gather raise. -/
def legacy_batch_gather (outs : List LegacyOutcome) :
    Except Unit (List LegacyOutcome) :=
  if outs.any (fun o => o.propagated) then .error () else .ok outs

/-! ## IIIF canvas processor (process_iiif_canvas, core.py lines 99-153) -/

/-- The observable terminal event of one canvas, mirroring the log calls
of `process_iiif_canvas`. -/
inductive CanvasEvent
  | canvasSkippedExists
  | noImageUrlFound
  | canvasDownloadFailed
  | canvasDownloadedSuccess
deriving DecidableEq

/-- Outcome record of one `process_iiif_canvas` call: the emitted event,
whether the target file was created, whether an exception escaped the
coroutine, and how many download operations were issued. -/
structure CanvasOutcome where
  event : CanvasEvent
  fileWritten : Bool
  propagated : Bool
  downloadCalls : Nat
deriving DecidableEq

/-- Environment of one `process_iiif_canvas` call: whether the target file
already exists, the canvas itself, and the result of `download_image`
(`.error` when it raises after exhausting retries). -/
structure CanvasEnv where
  fileExists : Bool
  canvas : IIIFCanvas
  download : Except Unit Bytes

/-- Embeds `process_iiif_canvas` (core.py lines 99-153).  In order: the
`file_path.exists()` skip check (before any network use); the
`get_image_url` emptiness check (skip, no download); then the
`try`/`except Exception` block — `open(file_path, "wb")` runs only after
`download_image` has returned the whole payload, so a download failure
creates no file, is caught, logged, and the coroutine returns normally. -/
def process_iiif_canvas (env : CanvasEnv) : CanvasOutcome :=
  if env.fileExists then
    { event := .canvasSkippedExists, fileWritten := false, propagated := false,
      downloadCalls := 0 }
  else if env.canvas.get_image_url = "" then
    { event := .noImageUrlFound, fileWritten := false, propagated := false,
      downloadCalls := 0 }
  else
    match env.download with
    | .ok _ =>
      { event := .canvasDownloadedSuccess, fileWritten := true,
        propagated := false, downloadCalls := 1 }
    | .error _ =>
      { event := .canvasDownloadFailed, fileWritten := false,
        propagated := false, downloadCalls := 1 }

/-! ## Concrete inputs used by witnesses and counterexamples -/

/-- A v2-style service: type marker `ImageService2`, id `http://x/svc`
(the spec's worked example). -/
def serviceV2 : IIIFService :=
  { id := some "http://x/svc", id_v3 := none, type := some "ImageService2",
    type_v3 := none, profile := "level2" }

/-- A v3-style service: type marker `ImageService3`, id `http://x/svc`. -/
def serviceV3 : IIIFService :=
  { id := none, id_v3 := some "http://x/svc", type := none,
    type_v3 := some "ImageService3", profile := "level2" }

/-- A service present in the manifest but carrying no id field at all
(both `@id` and `id` absent — pydantic accepts this, both default to
`None`). -/
def serviceNoId : IIIFService :=
  { id := none, id_v3 := none, type := some "ImageService2",
    type_v3 := none, profile := "level2" }

/-- A canvas with the full annotation chain terminating in `svc`. -/
def canvasWithService (svc : IIIFService) : IIIFCanvas :=
  { id := "c1", type := "Canvas", label := .str "Test", width := 10, height := 10,
    items := [{ id := "p1", type := "AnnotationPage",
                items := [{ id := "a1", type := "Annotation",
                            motivation := "painting",
                            body := { id := "i1", type := "Image",
                                      format := "image/jpeg", width := 10,
                                      height := 10, service := [svc] } }] }] }

/-- A canvas with no annotation pages at all. -/
def canvasNoItems : IIIFCanvas :=
  { id := "c1", type := "Canvas", label := .str "Test", width := 10,
    height := 10, items := [] }

/-- Legacy page environment: effective 10 x 10 page with tile size 10
(a 2 x 2 grid, 4 tiles); the fetch of tile (0, 0) fails after retries,
the other three succeed, and every payload decodes. -/
def envOneTileFailed : LegacyEnv :=
  { fileExists := false,
    metadata := .ok (10, 10, 10),
    tileFetch := fun cr => if cr = (0, 0) then .exc else .content [1],
    decode := fun _ => true }

/-- Legacy page environment: 1 x 2 grid whose tiles all fetch
successfully but whose payloads fail to decode. -/
def envDecodeFailure : LegacyEnv :=
  { fileExists := false,
    metadata := .ok (5, 10, 10),
    tileFetch := fun _ => .content [7],
    decode := fun _ => false }

/-- Legacy page environment whose metadata yields tile size 0. -/
def envZeroTileSize : LegacyEnv :=
  { fileExists := false,
    metadata := .ok (100, 100, 0),
    tileFetch := fun _ => .exc,
    decode := fun _ => true }

/-- Legacy page environment whose metadata fetch or parse raises. -/
def envMetadataFail : LegacyEnv :=
  { fileExists := false,
    metadata := .error (),
    tileFetch := fun _ => .exc,
    decode := fun _ => true }

/-- Legacy page environment for an already-saved page. -/
def envLegacySkip : LegacyEnv :=
  { fileExists := true,
    metadata := .error (),
    tileFetch := fun _ => .exc,
    decode := fun _ => true }

/-- Canvas environment for an already-saved canvas. -/
def envCanvasSkip : CanvasEnv :=
  { fileExists := true, canvas := canvasWithService serviceV2,
    download := .ok [1] }

/-- Canvas environment whose download raises after exhausting retries. -/
def envCanvasDownloadFail : CanvasEnv :=
  { fileExists := false, canvas := canvasWithService serviceV2,
    download := .error () }

/-! ## Helper lemmas -/

/-- The task comprehension is the cartesian product of the two ranges. -/
theorem tileTasks_eq_product (width height tile_size : Nat) :
    tileTasks width height tile_size =
      (List.range (columns_count width tile_size)) ×ˢ
        (List.range (rows_count height tile_size)) := rfl

/-- When every payload decodes, the composite loop returns normally with
the count of captured exceptions and the pasted coordinates in order. -/
theorem composite_loop_all_decode (decode : Bytes → Bool)
    (hdec : ∀ b, decode b = true) :
    ∀ (rs : List (Coord × FetchRes)) (f : Nat) (p : List Coord),
      composite_loop decode rs f p =
        .ok (f + (rs.map Prod.snd).countP (fun r => r.isExc),
          p.reverse ++ rs.filterMap contentCoord) := by
  intro rs
  induction rs with
  | nil => intro f p; simp [composite_loop]
  | cons x rest ih =>
    intro f p
    rcases x with ⟨cr, res⟩
    cases res with
    | content b =>
      rw [composite_loop, hdec b]
      simp only [if_true, ih]
      have h1 : contentCoord (cr, FetchRes.content b) = some cr := rfl
      have h2 : (FetchRes.content b).isExc = false := rfl
      rw [List.filterMap_cons, h1, List.map_cons, List.countP_cons, h2]
      simp
    | exc =>
      rw [composite_loop, ih]
      have h1 : contentCoord (cr, FetchRes.exc) = none := rfl
      have h2 : (FetchRes.exc).isExc = true := rfl
      rw [List.filterMap_cons, h1, List.map_cons, List.countP_cons, h2]
      simp only [if_true, Except.ok.injEq, Prod.mk.injEq]
      exact ⟨by omega, trivial⟩

/-- The composite loop raises exactly when some gathered payload fails to
decode. -/
theorem composite_loop_error_iff (decode : Bytes → Bool) :
    ∀ (rs : List (Coord × FetchRes)) (f : Nat) (p : List Coord),
      composite_loop decode rs f p = .error () ↔
        ∃ cr b, (cr, FetchRes.content b) ∈ rs ∧ decode b = false := by
  intro rs
  induction rs with
  | nil =>
    intro f p
    simp [composite_loop]
  | cons x rest ih =>
    intro f p
    rcases x with ⟨cr, res⟩
    cases res with
    | content b =>
      by_cases hd : decode b
      · rw [composite_loop, hd]
        simp only [if_true, ih]
        constructor
        · rintro ⟨cr2, b2, hmem, hdec2⟩
          exact ⟨cr2, b2, List.mem_cons_of_mem _ hmem, hdec2⟩
        · rintro ⟨cr2, b2, hmem, hdec2⟩
          rcases List.mem_cons.mp hmem with heq | hmem2
          · rw [Prod.mk.injEq] at heq
            rcases heq with ⟨h1, h2⟩
            rw [FetchRes.content.injEq] at h2
            subst h2
            rw [hd] at hdec2
            cases hdec2
          · exact ⟨cr2, b2, hmem2, hdec2⟩
      · rw [composite_loop]
        rw [Bool.not_eq_true] at hd
        rw [hd]
        simp only [Bool.false_eq_true, if_false, true_iff]
        exact ⟨cr, b, List.mem_cons_self _ _, hd⟩
    | exc =>
      rw [composite_loop, ih]
      constructor
      · rintro ⟨cr2, b, hmem, hdec⟩
        exact ⟨cr2, b, List.mem_cons_of_mem _ hmem, hdec⟩
      · rintro ⟨cr2, b, hmem, hdec⟩
        rcases List.mem_cons.mp hmem with heq | hmem2
        · rw [Prod.mk.injEq] at heq
          cases heq.2
        · exact ⟨cr2, b, hmem2, hdec⟩

/-- Pasted tiles and captured exceptions partition the gathered results. -/
theorem filterMap_content_length (rs : List (Coord × FetchRes)) :
    (rs.filterMap contentCoord).length
      + (rs.map Prod.snd).countP (fun r => r.isExc) = rs.length := by
  induction rs with
  | nil => rfl
  | cons x rest ih =>
    rcases x with ⟨cr, res⟩
    cases res with
    | content b =>
      have h1 : contentCoord (cr, FetchRes.content b) = some cr := rfl
      have h2 : (FetchRes.content b).isExc = false := rfl
      rw [List.filterMap_cons, h1, List.map_cons, List.countP_cons, h2]
      simp only [Bool.false_eq_true, if_false, List.length_cons]
      omega
    | exc =>
      have h1 : contentCoord (cr, FetchRes.exc) = none := rfl
      have h2 : (FetchRes.exc).isExc = true := rfl
      rw [List.filterMap_cons, h1, List.map_cons, List.countP_cons, h2]
      simp only [if_true, List.length_cons]
      omega

/-- The retry loop on an all-transient network consumes its whole budget
and ends with the outcome of the last attempt. -/
theorem retry_go_all_transient (network : Nat → AttemptOutcome)
    (h : ∀ j, (network j).isTransient = true) :
    ∀ (fuel k : Nat), retry_go network k (fuel + 1) = (k + fuel, network (k + fuel)) := by
  intro fuel
  induction fuel with
  | zero =>
    intro k
    simp [retry_go]
  | succ f ihf =>
    intro k
    rw [retry_go]
    simp only [h k, Bool.true_and]
    rw [if_pos (by simp)]
    rw [ihf (k + 1)]
    have hkf : k + 1 + f = k + (f + 1) := by omega
    rw [hkf]

/-- Reduction of `process_legacy_page` past its three guards. -/
theorem process_legacy_page_eval (env : LegacyEnv) (w h t : Nat)
    (hex : env.fileExists = false) (hmeta : env.metadata = .ok (w, h, t))
    (ht : t ≠ 0) :
    process_legacy_page env = finish_legacy_page env w h t := by
  simp [process_legacy_page, hex, hmeta, ht]

/-- Reduction of `finish_legacy_page` when the composite loop returns. -/
theorem finish_legacy_page_ok (env : LegacyEnv) (w h t failed : Nat)
    (pasted : List Coord)
    (hres : composite_loop env.decode
        ((tileTasks w h t).map (fun cr => (cr, env.tileFetch cr))) 0 [] =
      .ok (failed, pasted)) :
    finish_legacy_page env w h t =
      if failed = 0 then
        { event := .pageDownloadedSuccess, fileWritten := true,
          propagated := false, netCalls := legacy_net_calls w h t,
          pasted := pasted }
      else
        { event := .pageDownloadedWithErrors failed, fileWritten := false,
          propagated := false, netCalls := legacy_net_calls w h t,
          pasted := pasted } := by
  unfold finish_legacy_page
  rw [hres]

/-- Reduction of `finish_legacy_page` when the composite loop raises. -/
theorem finish_legacy_page_error (env : LegacyEnv) (w h t : Nat)
    (hres : composite_loop env.decode
        ((tileTasks w h t).map (fun cr => (cr, env.tileFetch cr))) 0 [] =
      .error ()) :
    finish_legacy_page env w h t =
      { event := .decodeError, fileWritten := false, propagated := true,
        netCalls := legacy_net_calls w h t, pasted := [] } := by
  unfold finish_legacy_page
  rw [hres]

/-! ## Claim theorems -/

/-- C1: for every width, height, tileSize with tileSize > 0, the legacy
page processor generates a tile-fetch task set that is exactly the
cartesian product of a width-derived count (width ÷ tileSize + 1) and a
height-derived count (height ÷ tileSize + 1): it has exactly
`columns_count * rows_count` coordinates, no duplicates, and contains
`(c, r)` exactly when `c < width / tileSize + 1` and
`r < height / tileSize + 1`.  The width-derived coordinate is the one the
spec calls the "row": it fills the first URL slot and drives the x pixel
offset of the paste. -/
theorem C1_tile_grid (width height tile_size : Nat) (h : 0 < tile_size) :
    (tileTasks width height tile_size).length =
        columns_count width tile_size * rows_count height tile_size
    ∧ (tileTasks width height tile_size).Nodup
    ∧ (∀ c r : Nat, (c, r) ∈ tileTasks width height tile_size ↔
        c < width / tile_size + 1 ∧ r < height / tile_size + 1)
    ∧ (∀ cr : Coord, (paste_position tile_size cr).1 = cr.1 * tile_size) := by
  refine ⟨?_, ?_, ?_, fun _ => rfl⟩
  · rw [tileTasks_eq_product, List.length_product, List.length_range,
      List.length_range]
  · rw [tileTasks_eq_product]
    exact (List.nodup_range _).product (List.nodup_range _)
  · intro c r
    rw [tileTasks_eq_product, List.mem_product, List.mem_range, List.mem_range]
    exact Iff.rfl

/-- Witness for C1 at the concrete input width = 999, height = 1999,
tileSize = 256 (4 columns, 8 rows, 32 tasks). -/
theorem C1_tile_grid_witness :
    (0 < 256) ∧ (tileTasks 999 1999 256).length = 32 := by
  refine ⟨by decide, ?_⟩
  rw [(C1_tile_grid 999 1999 256 (by decide)).1]
  decide

/-- C3: for every metadata document whose reported width, height and tile
size parse as integers, `get_file_info` returns width and height each one
less than the reported values and the tile size unchanged; in particular
reported width = 1000, height = 2000, tileSize = 256 yields
(999, 1999, 256). -/
theorem C3_metadata_off_by_one :
    (∀ w h t : Int,
      get_file_info_parse ⟨some w, some h, some t⟩ = .ok (w - 1, h - 1, t))
    ∧ get_file_info_parse ⟨some 1000, some 2000, some 256⟩ =
        .ok (999, 1999, 256) := by
  refine ⟨fun w h t => rfl, ?_⟩
  show Except.ok ((1000 : Int) - 1, (2000 : Int) - 1, (256 : Int)) = _
  norm_num

/-- C7 counterexample: a canvas whose full annotation chain is present but
whose service carries no id field at all (an expected field is absent)
derives the non-empty URL "/full/full/0/default.jpg", not the empty
string — refuting the claim that any absent expected field yields the
empty URL. -/
theorem C7_counterexample :
    (canvasWithService serviceNoId).get_image_url = "/full/full/0/default.jpg"
    ∧ ¬ ((canvasWithService serviceNoId).get_image_url = "") := by
  refine ⟨by decide, by decide⟩

/-- C7 (amended): for every canvas whose first-annotation-page /
first-annotation / first-service chain is present, the derived URL is
`{rstrip(serviceBase)}/full/max/0/default.jpg` when `is_v3` holds and
`{rstrip(serviceBase)}/full/full/0/default.jpg` otherwise; when the chain
itself is absent (no annotation page, no annotation, or empty service
list) the URL is the empty string and the canvas processor skips the
canvas without issuing a download and without a propagated exception.
The spec's v2 example derives `http://x/svc/full/full/0/default.jpg` and
the v3 variant `http://x/svc/full/max/0/default.jpg`.  (A present
service whose id fields are all absent yields the non-empty URL
"/full/full/0/default.jpg", see the counterexample.) -/
theorem C7_image_url_rule :
    (∀ (c : IIIFCanvas) (page : IIIFAnnotationPage) (anno : IIIFAnnotation)
        (svc : IIIFService),
        c.items.head? = some page → page.items.head? = some anno →
        anno.body.service.head? = some svc →
        c.get_image_url = rstripSlash svc.service_id ++
          (if svc.is_v3 then "/full/max/0/default.jpg"
           else "/full/full/0/default.jpg"))
    ∧ (∀ c : IIIFCanvas,
        (c.items.head? = none
          ∨ (∃ page, c.items.head? = some page ∧ page.items.head? = none)
          ∨ (∃ page anno, c.items.head? = some page ∧
              page.items.head? = some anno ∧ anno.body.service.head? = none)) →
        c.get_image_url = "")
    ∧ (canvasWithService serviceV2).get_image_url =
        "http://x/svc/full/full/0/default.jpg"
    ∧ (canvasWithService serviceV3).get_image_url =
        "http://x/svc/full/max/0/default.jpg"
    ∧ (∀ env : CanvasEnv, env.fileExists = false →
        env.canvas.get_image_url = "" →
        process_iiif_canvas env =
          { event := .noImageUrlFound, fileWritten := false,
            propagated := false, downloadCalls := 0 }) := by
  refine ⟨?_, ?_, by decide, by decide, ?_⟩
  · intro c page anno svc h1 h2 h3
    cases hc : c.items with
    | nil => rw [hc] at h1; cases h1
    | cons p rest =>
      rw [hc] at h1
      rcases Option.some.inj h1 with rfl
      cases hp : p.items with
      | nil => rw [hp] at h2; cases h2
      | cons a rest2 =>
        rw [hp] at h2
        rcases Option.some.inj h2 with rfl
        cases hs : a.body.service with
        | nil => rw [hs] at h3; cases h3
        | cons s rest3 =>
          rw [hs] at h3
          rcases Option.some.inj h3 with rfl
          simp only [IIIFCanvas.get_image_url, hc, hp, hs]
          by_cases hv : s.is_v3 = true <;> simp [hv]
  · intro c hmiss
    rcases hmiss with h1 | ⟨page, h1, h2⟩ | ⟨page, anno, h1, h2, h3⟩
    · cases hc : c.items with
      | nil => simp [IIIFCanvas.get_image_url, hc]
      | cons p rest => rw [hc] at h1; simp at h1
    · cases hc : c.items with
      | nil => simp [IIIFCanvas.get_image_url, hc]
      | cons p rest =>
        rw [hc] at h1
        rcases Option.some.inj h1 with rfl
        cases hp : p.items with
        | nil => simp [IIIFCanvas.get_image_url, hc, hp]
        | cons a rest2 => rw [hp] at h2; simp at h2
    · cases hc : c.items with
      | nil => simp [IIIFCanvas.get_image_url, hc]
      | cons p rest =>
        rw [hc] at h1
        rcases Option.some.inj h1 with rfl
        cases hp : p.items with
        | nil => simp [IIIFCanvas.get_image_url, hc, hp]
        | cons a rest2 =>
          rw [hp] at h2
          rcases Option.some.inj h2 with rfl
          cases hs : a.body.service with
          | nil => simp [IIIFCanvas.get_image_url, hc, hp, hs]
          | cons s rest3 => rw [hs] at h3; simp at h3
  · intro env hex hurl
    simp [process_iiif_canvas, hex, hurl]

/-- Witness for C7 (amended) at the spec's v2 example canvas and at a
canvas with no annotation pages. -/
theorem C7_image_url_rule_witness :
    (canvasWithService serviceV2).get_image_url =
      rstripSlash serviceV2.service_id ++
        (if serviceV2.is_v3 then "/full/max/0/default.jpg"
         else "/full/full/0/default.jpg")
    ∧ canvasNoItems.get_image_url = "" :=
  ⟨C7_image_url_rule.1 (canvasWithService serviceV2) _ _ serviceV2 rfl rfl rfl,
   C7_image_url_rule.2.1 canvasNoItems (Or.inl rfl)⟩

/-- C8: for every legacy page and every canvas whose target file already
exists, the processor reaches the terminal skip event and issues zero
network fetches. -/
theorem C8_skip_existing (envL : LegacyEnv) (envC : CanvasEnv)
    (hL : envL.fileExists = true) (hC : envC.fileExists = true) :
    (process_legacy_page envL).event = LegacyEvent.pageSkippedExists
    ∧ (process_legacy_page envL).netCalls = []
    ∧ (process_iiif_canvas envC).event = CanvasEvent.canvasSkippedExists
    ∧ (process_iiif_canvas envC).downloadCalls = 0 := by
  refine ⟨?_, ?_, ?_, ?_⟩ <;> simp [process_legacy_page, process_iiif_canvas, hL, hC]

/-- Witness for C8 at concrete already-saved environments. -/
theorem C8_skip_existing_witness :
    (process_legacy_page envLegacySkip).event = LegacyEvent.pageSkippedExists
    ∧ (process_legacy_page envLegacySkip).netCalls = []
    ∧ (process_iiif_canvas envCanvasSkip).event = CanvasEvent.canvasSkippedExists
    ∧ (process_iiif_canvas envCanvasSkip).downloadCalls = 0 :=
  C8_skip_existing envLegacySkip envCanvasSkip rfl rfl

/-- C9: evaluating `process_legacy_page` at metadata (width = 100,
height = 100, tileSize = 0): the code performs `width // tile_size` with
no prior rejection of tileSize = 0, so a `ZeroDivisionError` is raised
during grid construction, escapes the page coroutine, and makes the
enclosing batch gather raise — the spec's required rejection before grid
construction does not exist in the code. -/
theorem C9_zero_tile_size_crash :
    (process_legacy_page envZeroTileSize).event = LegacyEvent.zeroDivisionError
    ∧ (process_legacy_page envZeroTileSize).propagated = true
    ∧ legacy_batch_gather [process_legacy_page envZeroTileSize] = .error () := by
  refine ⟨by decide, by decide, rfl⟩

/-- C10: in manifest mode, for every canvas whose download raises after
exhausting retries, no file is created at the target path (the write
happens only after the whole payload is received), the exception is
caught inside the canvas processor (nothing propagates), and the
processor returns the failed outcome normally. -/
theorem C10_download_failure_contained (env : CanvasEnv)
    (hex : env.fileExists = false) (hurl : env.canvas.get_image_url ≠ "")
    (hdl : env.download = .error ()) :
    process_iiif_canvas env =
      { event := .canvasDownloadFailed, fileWritten := false,
        propagated := false, downloadCalls := 1 } := by
  simp [process_iiif_canvas, hex, hurl, hdl]

/-- Witness for C10 at a concrete canvas whose download fails. -/
theorem C10_download_failure_contained_witness :
    process_iiif_canvas envCanvasDownloadFail =
      { event := .canvasDownloadFailed, fileWritten := false,
        propagated := false, downloadCalls := 1 } :=
  C10_download_failure_contained envCanvasDownloadFail rfl (by decide) rfl

/-- C2 counterexample: in the concrete 2 x 2 grid where exactly 1 of the
4 tiles fails after retries (and every fetched payload decodes), the page
emits the distinguishable `page_downloaded_with_errors` event but the
composite is NOT written to the target path — refuting the claim that the
page reaches Saved with the composite (with blank regions) written. -/
theorem C2_counterexample :
    ¬ ((process_legacy_page envOneTileFailed).fileWritten = true)
    ∧ (process_legacy_page envOneTileFailed).event =
        LegacyEvent.pageDownloadedWithErrors 1 := by
  refine ⟨by decide, by decide⟩

/-- C2 (amended): for every legacy page past its guards where k > 0 tiles
fail after exhausting retries (and every fetched payload decodes), the
page still reaches a terminal state without a propagated exception and
emits the distinguishable `page_downloaded_with_errors` event carrying
exactly k — but the composite is NOT written to the target path (the save
is withheld whenever any tile failed), and exactly k grid cells remain
unpasted (blank). -/
theorem C2_partial_failure_save_withheld (env : LegacyEnv) (w h t : Nat)
    (hex : env.fileExists = false) (hmeta : env.metadata = .ok (w, h, t))
    (ht : t ≠ 0) (hdec : ∀ b, env.decode b = true)
    (hk : 0 < failedTileCount env w h t) :
    (process_legacy_page env).event =
        LegacyEvent.pageDownloadedWithErrors (failedTileCount env w h t)
    ∧ (process_legacy_page env).fileWritten = false
    ∧ (process_legacy_page env).propagated = false
    ∧ (process_legacy_page env).pasted.length + failedTileCount env w h t
        = (tileTasks w h t).length := by
  have hcount : (((tileTasks w h t).map (fun cr => (cr, env.tileFetch cr))).map
      Prod.snd) = (tileTasks w h t).map (fun cr => env.tileFetch cr) := by
    rw [List.map_map]
    rfl
  have hfc : ((tileTasks w h t).map (fun cr => env.tileFetch cr)).countP
      (fun r => r.isExc) = failedTileCount env w h t := rfl
  have hloop := composite_loop_all_decode env.decode hdec
    ((tileTasks w h t).map (fun cr => (cr, env.tileFetch cr))) 0 []
  rw [hcount, hfc] at hloop
  simp only [Nat.zero_add, List.reverse_nil, List.nil_append] at hloop
  rw [process_legacy_page_eval env w h t hex hmeta ht,
    finish_legacy_page_ok env w h t _ _ hloop,
    if_neg (Nat.pos_iff_ne_zero.mp hk)]
  refine ⟨rfl, rfl, rfl, ?_⟩
  have hlen := filterMap_content_length
    ((tileTasks w h t).map (fun cr => (cr, env.tileFetch cr)))
  rw [hcount, hfc, List.length_map] at hlen
  exact hlen

/-- Witness for C2 (amended) at the concrete 2 x 2 environment with one
failed tile. -/
theorem C2_partial_failure_save_withheld_witness :
    (process_legacy_page envOneTileFailed).event =
        LegacyEvent.pageDownloadedWithErrors
          (failedTileCount envOneTileFailed 10 10 10)
    ∧ (process_legacy_page envOneTileFailed).fileWritten = false
    ∧ (process_legacy_page envOneTileFailed).propagated = false
    ∧ (process_legacy_page envOneTileFailed).pasted.length
        + failedTileCount envOneTileFailed 10 10 10
        = (tileTasks 10 10 10).length :=
  C2_partial_failure_save_withheld envOneTileFailed 10 10 10 rfl rfl
    (by decide) (fun _ => rfl) (by decide)

/-- C4 counterexample: in the concrete 1 x 2 grid whose two tiles both
fetch successfully but fail to decode, the decode failure is NOT counted
as a failed tile: it raises an exception that escapes the page processor
(`propagated`), and the enclosing batch gather (no `return_exceptions`)
re-raises it — refuting the claim that decode failures are handled like
fetch failures without propagating. -/
theorem C4_counterexample :
    (process_legacy_page envDecodeFailure).propagated = true
    ∧ ¬ ((process_legacy_page envDecodeFailure).event =
          LegacyEvent.pageDownloadedWithErrors 2)
    ∧ legacy_batch_gather [process_legacy_page envDecodeFailure] = .error () := by
  refine ⟨by decide, by decide, rfl⟩

/-- C4 (amended): fetch failures are counted and skipped (see the C2
theorem), but a decode failure of a successfully fetched tile raises an
uncaught exception: for every legacy page past its guards with some
fetched tile whose payload fails to decode, the page processor ends in
the uncaught-decode-error state, writes no file, propagates the
exception, and the enclosing batch gather re-raises it (aborting the
sibling pages' await). -/
theorem C4_decode_failure_propagates (env : LegacyEnv) (w h t : Nat)
    (hex : env.fileExists = false) (hmeta : env.metadata = .ok (w, h, t))
    (ht : t ≠ 0)
    (hbad : ∃ cr ∈ tileTasks w h t, ∃ b,
        env.tileFetch cr = FetchRes.content b ∧ env.decode b = false) :
    (process_legacy_page env).event = LegacyEvent.decodeError
    ∧ (process_legacy_page env).fileWritten = false
    ∧ (process_legacy_page env).propagated = true
    ∧ legacy_batch_gather [process_legacy_page env] = .error () := by
  have herr : composite_loop env.decode
      ((tileTasks w h t).map (fun cr => (cr, env.tileFetch cr))) 0 [] =
        .error () := by
    rw [composite_loop_error_iff]
    rcases hbad with ⟨cr, hmem, b, hfetch, hdecf⟩
    refine ⟨cr, b, ?_, hdecf⟩
    rw [List.mem_map]
    exact ⟨cr, hmem, by rw [hfetch]⟩
  rw [process_legacy_page_eval env w h t hex hmeta ht,
    finish_legacy_page_error env w h t herr]
  exact ⟨rfl, rfl, rfl, rfl⟩

/-- Witness for C4 (amended) at the concrete decode-failure environment. -/
theorem C4_decode_failure_propagates_witness :
    (process_legacy_page envDecodeFailure).event = LegacyEvent.decodeError
    ∧ (process_legacy_page envDecodeFailure).fileWritten = false
    ∧ (process_legacy_page envDecodeFailure).propagated = true
    ∧ legacy_batch_gather [process_legacy_page envDecodeFailure] = .error () :=
  C4_decode_failure_propagates envDecodeFailure 5 10 10 rfl rfl (by decide)
    ⟨(0, 0), by decide, [7], rfl, rfl⟩

/-- C5 counterexample: on a network whose every attempt fails with a
retryable HTTP status error, the tile/image fetch makes its full 5
attempts, but the per-page metadata fetch makes exactly 1 attempt — it
carries no retry decorator — refuting the claim that the metadata fetch
is retried up to 5 attempts. -/
theorem C5_counterexample :
    get_file_info_fetch (fun _ => AttemptOutcome.statusError) =
      (1, AttemptOutcome.statusError)
    ∧ ¬ ((get_file_info_fetch (fun _ => AttemptOutcome.statusError)).1 = 5)
    ∧ (download_image_run (fun _ => AttemptOutcome.statusError)).1 = 5 := by
  refine ⟨rfl, by decide, by decide⟩

/-- C5 (amended): the tile/image fetch (`download_image`) retries
transient network and HTTP status failures up to 5 attempts — an
all-transient network consumes all 5 attempts and then re-raises, a
success or a non-retryable error on the first attempt stops at once —
with every backoff wait bounded into [1s, 10s]; the per-page metadata
fetch is issued exactly once with no retry; and a metadata failure is
downgraded to a page-level failure without a propagated exception, so
the run continues. -/
theorem C5_retry_policy :
    (∀ network : Nat → AttemptOutcome,
        (∀ j, (network j).isTransient = true) →
        download_image_run network = (5, network 5))
    ∧ (∀ (network : Nat → AttemptOutcome) (b : Bytes),
        network 1 = AttemptOutcome.ok b →
        download_image_run network = (1, AttemptOutcome.ok b))
    ∧ (∀ network : Nat → AttemptOutcome,
        network 1 = AttemptOutcome.fatal →
        download_image_run network = (1, AttemptOutcome.fatal))
    ∧ (∀ k : Nat, 1 ≤ retryWait k ∧ retryWait k ≤ 10)
    ∧ (∀ network : Nat → AttemptOutcome,
        get_file_info_fetch network = (1, network 1))
    ∧ (∀ env : LegacyEnv, env.fileExists = false →
        env.metadata = .error () →
        (process_legacy_page env).event = LegacyEvent.infoFetchError
        ∧ (process_legacy_page env).propagated = false) := by
  refine ⟨?_, ?_, ?_, ?_, fun network => rfl, ?_⟩
  · intro network htrans
    have h45 := retry_go_all_transient network htrans 4 1
    simpa [download_image_run] using h45
  · intro network b hok
    show retry_go network 1 (4 + 1) = _
    rw [retry_go]
    simp [hok, AttemptOutcome.isTransient]
  · intro network hfat
    show retry_go network 1 (4 + 1) = _
    rw [retry_go]
    simp [hfat, AttemptOutcome.isTransient]
  · intro k
    refine ⟨le_max_left _ _, ?_⟩
    exact max_le (by norm_num) (min_le_right _ _)
  · intro env hex hmeta
    refine ⟨?_, ?_⟩ <;> simp [process_legacy_page, hex, hmeta]

/-- Witness for C5 (amended) at concrete networks and the concrete
metadata-failure environment. -/
theorem C5_retry_policy_witness :
    download_image_run (fun _ => AttemptOutcome.requestError) =
      (5, AttemptOutcome.requestError)
    ∧ download_image_run (fun _ => AttemptOutcome.fatal) =
      (1, AttemptOutcome.fatal)
    ∧ 1 ≤ retryWait 3
    ∧ retryWait 3 ≤ 10
    ∧ (process_legacy_page envMetadataFail).event = LegacyEvent.infoFetchError :=
  ⟨C5_retry_policy.1 (fun _ => AttemptOutcome.requestError) (fun _ => rfl),
   C5_retry_policy.2.2.1 (fun _ => AttemptOutcome.fatal) rfl,
   (C5_retry_policy.2.2.2.1 3).1,
   (C5_retry_policy.2.2.2.1 3).2,
   (C5_retry_policy.2.2.2.2.2 envMetadataFail rfl rfl).1⟩

/-- C6 counterexample: a 1-canvas list with the out-of-bounds range
"5-10" is silently clamped by list slicing to the empty selection and the
run proceeds — it does not abort — refuting the claim that an
out-of-bounds range is reported as an input error and never silently
clamped. -/
theorem C6_counterexample :
    select_items [(0 : Nat)] (some "5-10") = RangeOutcome.proceed []
    ∧ ¬ (select_items [(0 : Nat)] (some "5-10") = RangeOutcome.aborted) := by
  refine ⟨by decide, by decide⟩

/-- C6 (amended): a malformed range string (one that fails
`map(int, s.split("-"))`, e.g. "invalid") aborts the whole run; but a
parseable range is never bounds-checked: the selection is
`items[start - 1 : end]` with Python slice clamping, so an out-of-bounds
range silently proceeds with the clamped (possibly empty) selection. -/
theorem C6_range_policy {α : Type} :
    (∀ (items : List α) (s : String), parseRange s = none →
        select_items items (some s) = RangeOutcome.aborted)
    ∧ (∀ (items : List α) (s : String) (a b : Int),
        parseRange s = some (a, b) →
        select_items items (some s) =
          RangeOutcome.proceed (pySlice items (a - 1) b))
    ∧ parseRange "invalid" = none
    ∧ parseRange "5-10" = some (5, 10)
    ∧ (∀ items : List α, select_items items none = RangeOutcome.proceed items) := by
  refine ⟨?_, ?_, by decide, by decide, fun items => rfl⟩
  · intro items s hp
    simp [select_items, hp]
  · intro items s a b hp
    simp [select_items, hp]

/-- Witness for C6 (amended): the malformed string "invalid" aborts, the
parseable range "2-3" proceeds with the sliced selection. -/
theorem C6_range_policy_witness :
    select_items ([0, 1, 2] : List Nat) (some "invalid") = RangeOutcome.aborted
    ∧ select_items ([0, 1, 2] : List Nat) (some "2-3") =
        RangeOutcome.proceed (pySlice [0, 1, 2] (2 - 1) 3) :=
  ⟨C6_range_policy.1 [0, 1, 2] "invalid" (by decide),
   C6_range_policy.2.1 [0, 1, 2] "2-3" 2 3 (by decide)⟩

end BLTools
